import Mathlib

/-!
Verification of the NFT-analytics scoring engine.

The scoring heuristics of the repository are shallowly embedded below.
JavaScript numbers are modelled as rationals (ℚ); the string tags, tier
names and risk labels of the source are kept as string literals.  Each
tool's pure scoring core is translated from its source function; the
HTTP fetches surrounding the scorers are modelled as explicit inputs
(an `Option` for a fetch that can fail, or an oracle function together
with a count of upstream calls where a claim is about calls performed).
-/

namespace NFTAnalytics

/-! ## Data model (interfaces of unleash-client.ts) -/

/-- Record of the CollectionData interface: per-collection metrics as
returned by the upstream client. -/
structure CollectionData where
  contract_address : String
  name : String
  owner_count : ℚ
  nft_count : ℚ
  volume_24h : ℚ
  floor_price : ℚ
  average_price_24h : ℚ
  sales_24h : ℚ
  volume_change_24h : ℚ
  floor_price_change_24h : ℚ
  average_price_change_24h : ℚ
  sales_change_24h : ℚ
  market_cap : ℚ
  fully_diluted_market_cap : ℚ
deriving Repr, DecidableEq

/-- Record of the MarketMetrics interface. -/
structure MarketMetrics where
  volume_24h : ℚ
  volume_change_24h : ℚ
  sales_24h : ℚ
  sales_change_24h : ℚ
  average_price : ℚ
  average_price_change : ℚ
  active_wallets : ℚ
  active_wallets_change : ℚ
deriving Repr, DecidableEq

/-- Record of the WalletProfile interface. -/
structure WalletProfile where
  address : String
  is_whale : Bool
  is_shark : Bool
  nft_count : ℚ
  collection_count : ℚ
  total_value : ℚ
  realized_gains : ℚ
  realized_losses : ℚ
  washtrade_score : ℚ
deriving Repr, DecidableEq

/-- Record of the wash-trading data object built by
getCollectionWashTrading in unleash-client.ts. -/
structure WashTradingData where
  wash_trading_volume : ℚ
  total_volume : ℚ
  wash_trading_percentage : ℚ
  wash_trading_sales : ℚ
  total_sales : ℚ
  wash_trading_wallets : ℚ
  wash_trading_assets : ℚ
  risk_score : ℚ
deriving Repr, DecidableEq

/-! ## Metric normalizer (getValue in unleash-client.ts)

The upstream payload maps a metric name to an object holding a `value`
field that is a string, the literal null, or absent; the whole metric
object can itself be absent.  An absent metric is `none`; a metric with
a null (or absent) `value` is `some ⟨none⟩`. -/

/-- Raw upstream metric container: the `value` field may be null (none)
or a string. -/
structure RawMetric where
  value : Option String
deriving Repr, DecidableEq

/-- Digits of a character list read in base 10. -/
def digitsToNat (ds : List Char) : ℕ :=
  ds.foldl (fun n c => 10 * n + (c.toNat - 48)) 0

/-- Longest prefix of decimal digits, together with the rest. -/
def takeDigits : List Char → List Char × List Char
  | [] => ([], [])
  | c :: rest =>
    if c.isDigit then
      let (d, r) := takeDigits rest
      (c :: d, r)
    else ([], c :: rest)

/-- Model of the JavaScript parseFloat builtin on the fragment the
client feeds it: an optional sign, integer digits, and an optional
fractional part.  A string with no leading decimal literal parses to
NaN, modelled as none. -/
def parseFloat (s : String) : Option ℚ :=
  let cs := s.toList
  let signAndRest : ℚ × List Char :=
    match cs with
    | '-' :: r => (-1, r)
    | '+' :: r => (1, r)
    | _ => (1, cs)
  let (intPart, afterInt) := takeDigits signAndRest.2
  let fracPart : List Char :=
    match afterInt with
    | '.' :: r => (takeDigits r).1
    | _ => []
  if intPart.isEmpty ∧ fracPart.isEmpty then none
  else
    some (signAndRest.1 *
      ((digitsToNat intPart : ℚ) + (digitsToNat fracPart : ℚ) / 10 ^ fracPart.length))

/-- Translation of the getValue helper of unleash-client.ts: absent
metric gives 0; a falsy value field (null or empty) is replaced by the
string "0" before parsing; a parse failure (NaN) gives 0. -/
def getValue (metric : Option RawMetric) : ℚ :=
  match metric with
  | none => 0
  | some m =>
    let str :=
      match m.value with
      | none => "0"
      | some s => if s = "" then "0" else s
    match parseFloat str with
    | none => 0
    | some v => v

/-! ## Wash-trading severity classifier (detect-wash-trading tool) -/

/-- Translation of getWashTradingSeverity. -/
def getWashTradingSeverity (percentage : ℚ) : String :=
  if percentage ≥ 40 then "CRITICAL"
  else if percentage ≥ 25 then "HIGH"
  else if percentage ≥ 15 then "MODERATE"
  else if percentage ≥ 5 then "LOW"
  else "MINIMAL"

/-! ## Wallet risk scorer (check-wallet-risk tool) -/

/-- Wallet type classification from the tool body: whale wins over
shark, anything else is a regular wallet. -/
def walletType (walletProfile : WalletProfile) : String :=
  if walletProfile.is_whale then "whale"
  else if walletProfile.is_shark then "shark"
  else "regular"

/-- Translation of the risk-score accumulation in the checkWalletRisk
tool body: each triggered condition adds its penalty and pushes its red
flag, in source order. -/
def walletRiskScore (walletProfile : WalletProfile) : ℚ × List String :=
  let acc : ℚ × List String := (0, [])
  let acc :=
    if walletProfile.washtrade_score > 50 then
      (acc.1 + 40, acc.2 ++ ["high_wash_trading_activity"])
    else if walletProfile.washtrade_score > 20 then
      (acc.1 + 20, acc.2 ++ ["moderate_wash_trading_activity"])
    else acc
  let profitLossRatio :=
    walletProfile.realized_gains / max walletProfile.realized_losses 1
  let acc :=
    if profitLossRatio < 0.5 ∧ walletProfile.realized_losses > 10000 then
      (acc.1 + 15, acc.2 ++ ["poor_trading_performance"])
    else acc
  let acc :=
    if walletProfile.collection_count = 1 ∧ walletProfile.nft_count > 10 then
      (acc.1 + 20, acc.2 ++ ["highly_concentrated_portfolio"])
    else acc
  let acc :=
    if walletProfile.nft_count = 0 ∧ walletProfile.total_value > 0 then
      (acc.1 + 15, acc.2 ++ ["inconsistent_portfolio_data"])
    else acc
  acc

/-- Translation of getRiskLevel (wallet tier from accumulated score). -/
def getRiskLevel (score : ℚ) : String :=
  if score ≥ 70 then "HIGH"
  else if score ≥ 40 then "MODERATE"
  else if score ≥ 20 then "LOW"
  else "MINIMAL"

/-- Character class of the wallet-address regex body [a-fA-F0-9]. -/
def isHexChar (c : Char) : Bool :=
  c.isDigit || ('a' ≤ c && c ≤ 'f') || ('A' ≤ c && c ≤ 'F')

/-- Model of the match against the anchored regex for a canonical
wallet address: the literal 0x followed by exactly 40 hex characters. -/
def isValidWalletAddress (s : String) : Bool :=
  s.length == 42 && s.toList.take 2 == ['0', 'x'] && (s.toList.drop 2).all isHexChar

/-- Shaped result of a successful checkWalletRisk call (the fields the
tool derives from the profile by pure computation). -/
structure WalletRiskResult where
  wallet_address : String
  risk_score : ℚ
  risk_level : String
  wallet_type : String
  red_flags : List String
deriving Repr, DecidableEq

/-- The three response shapes of the checkWalletRisk tool body:
validation error, missing-profile error, or an analysis result. -/
inductive WalletRiskResponse where
  | invalidAddress (wallet_address : String)
  | profileUnavailable (wallet_address : String)
  | ok (result : WalletRiskResult)
deriving Repr, DecidableEq

/-- Translation of the checkWalletRisk tool body.  The upstream client
is an oracle from address to optional profile; the second component
counts the upstream fetches performed, so that claims about calls made
before validation are statable. -/
def checkWalletRisk (wallet_address : String)
    (fetchProfile : String → Option WalletProfile) :
    WalletRiskResponse × ℕ :=
  if ¬ isValidWalletAddress wallet_address then
    (.invalidAddress wallet_address, 0)
  else
    match fetchProfile wallet_address with
    | none => (.profileUnavailable wallet_address, 1)
    | some walletProfile =>
      let (riskScore, redFlags) := walletRiskScore walletProfile
      (.ok { wallet_address := wallet_address
             risk_score := riskScore
             risk_level := getRiskLevel riskScore
             wallet_type := walletType walletProfile
             red_flags := redFlags }, 1)

/-! ## Market sentiment analyzer (get-market-trends tool) -/

/-- Translation of determineMarketSentiment: a signed score accumulated
from the four change metrics, classified bullish at 3 and above,
bearish at -3 and below, else neutral. -/
def determineMarketSentiment (metrics : MarketMetrics) : String :=
  let score : ℤ := 0
  let score :=
    if metrics.volume_change_24h > 20 then score + 2
    else if metrics.volume_change_24h > 0 then score + 1
    else if metrics.volume_change_24h < -20 then score - 2
    else if metrics.volume_change_24h < 0 then score - 1
    else score
  let score :=
    if metrics.sales_change_24h > 15 then score + 1
    else if metrics.sales_change_24h < -15 then score - 1
    else score
  let score :=
    if metrics.active_wallets_change > 10 then score + 1
    else if metrics.active_wallets_change < -10 then score - 1
    else score
  let score :=
    if metrics.average_price_change > 10 then score + 1
    else if metrics.average_price_change < -10 then score - 1
    else score
  if score ≥ 3 then "bullish"
  else if score ≤ -3 then "bearish"
  else "neutral"

/-- Translation of getMarketMetrics in unleash-client.ts: market
metrics are aggregated over the fetched trending collections (none when
that list is empty); the four change fields are not derivable from the
aggregation and are fixed at 0, and active_wallets is the floor of the
mean holder count. -/
def getMarketMetrics (trendingCollections : List CollectionData) :
    Option MarketMetrics :=
  if trendingCollections.length = 0 then none
  else
    let volume := (trendingCollections.map (·.volume_24h)).sum
    let sales := (trendingCollections.map (·.sales_24h)).sum
    let wallets := (trendingCollections.map (·.owner_count)).sum
    let avgPrice := if sales > 0 then volume / sales else 0
    some { volume_24h := volume
           volume_change_24h := 0
           sales_24h := sales
           sales_change_24h := 0
           average_price := avgPrice
           average_price_change := 0
           active_wallets := (⌊wallets / (trendingCollections.length : ℚ)⌋ : ℤ)
           active_wallets_change := 0 }

/-! ## Collection risk scorer (analyze-collection tool) -/

/-- Translation of the safety-score accumulation in the
analyzeCollection tool body: start from 100 and subtract the penalty of
each triggered condition, pushing its risk tag, in source order.  The
wash-trading fetch may fail, in which case (as in the source, where the
condition is guarded by the truthiness of washTradingData) no
wash-trading penalty applies. -/
def collectionSafety (collectionData : CollectionData)
    (washTradingData : Option WashTradingData) : ℚ × List String :=
  let acc : ℚ × List String := (100, [])
  let acc :=
    if collectionData.owner_count < 100 then
      (acc.1 - 20, acc.2 ++ ["low_holder_count"])
    else if collectionData.owner_count < 500 then
      (acc.1 - 10, acc.2 ++ ["moderate_holder_count"])
    else acc
  let acc :=
    match washTradingData with
    | some washTrading =>
      if washTrading.wash_trading_percentage > 30 then
        (acc.1 - 30, acc.2 ++ ["high_wash_trading"])
      else if washTrading.wash_trading_percentage > 15 then
        (acc.1 - 15, acc.2 ++ ["moderate_wash_trading"])
      else acc
    | none => acc
  let acc :=
    if collectionData.volume_change_24h < -50 then
      (acc.1 - 15, acc.2 ++ ["sharp_volume_decline"])
    else acc
  let acc :=
    if |collectionData.floor_price_change_24h| > 30 then
      (acc.1 - 10, acc.2 ++ ["high_price_volatility"])
    else acc
  acc

/-- Recommendation tier from the safety score, as in the tool body. -/
def collectionRecommendation (safetyScore : ℚ) : String :=
  if safetyScore ≥ 80 then "SAFE"
  else if safetyScore ≥ 60 then "CAUTION"
  else "HIGH_RISK"

/-- Scored part of the analyzeCollection tool response. -/
structure CollectionAnalysis where
  safety_score : ℚ
  risks : List String
  recommendation : String
deriving Repr, DecidableEq

/-- Pure core of the analyzeCollection tool: score, risk tags and tier
for a fetched collection and an optional wash-trading fetch. -/
def analyzeCollection (collectionData : CollectionData)
    (washTradingData : Option WashTradingData) : CollectionAnalysis :=
  let acc := collectionSafety collectionData washTradingData
  { safety_score := acc.1
    risks := acc.2
    recommendation := collectionRecommendation acc.1 }

/-- Holder-count penalty of the analyzeCollection score. -/
def holderPenalty (collectionData : CollectionData) : ℚ :=
  if collectionData.owner_count < 100 then 20
  else if collectionData.owner_count < 500 then 10
  else 0

/-- Wash-trading penalty of the analyzeCollection score. -/
def washPenalty (washTradingData : Option WashTradingData) : ℚ :=
  match washTradingData with
  | some washTrading =>
    if washTrading.wash_trading_percentage > 30 then 30
    else if washTrading.wash_trading_percentage > 15 then 15
    else 0
  | none => 0

/-- Volume-decline penalty of the analyzeCollection score. -/
def volumePenalty (collectionData : CollectionData) : ℚ :=
  if collectionData.volume_change_24h < -50 then 15 else 0

/-- Price-volatility penalty of the analyzeCollection score. -/
def volatilityPenalty (collectionData : CollectionData) : ℚ :=
  if |collectionData.floor_price_change_24h| > 30 then 10 else 0

/-- The sequential accumulation computes 100 minus the four independent
penalties. -/
lemma collectionSafety_score_decomp (collectionData : CollectionData)
    (washTradingData : Option WashTradingData) :
    (collectionSafety collectionData washTradingData).1 =
      100 - holderPenalty collectionData - washPenalty washTradingData -
        volumePenalty collectionData - volatilityPenalty collectionData := by
  unfold collectionSafety holderPenalty washPenalty volumePenalty volatilityPenalty
  cases washTradingData <;> dsimp only <;> split_ifs <;> ring

/-- Update of the wash-trading percentage with all other fields kept. -/
def setWashPct (washTradingData : WashTradingData) (p : ℚ) : WashTradingData :=
  { washTradingData with wash_trading_percentage := p }

/-! ## Portfolio advisor (get-investment-advice tool) -/

/-- Metrics subset attached to a scored candidate. -/
structure ScoredMetrics where
  holders : ℚ
  volume_24h : ℚ
  volume_change : ℚ
  floor_change : ℚ
  sales_24h : ℚ
deriving Repr, DecidableEq

/-- Scored-candidate record pushed by scoreCollections. -/
structure ScoredCollection where
  collection : String
  address : String
  score : ℚ
  floor_price : ℚ
  factors : List String
  metrics : ScoredMetrics
deriving Repr, DecidableEq

/-- Loop body of scoreCollections: additive point system with factor
tags, in source order. -/
def scoreOne (collection : CollectionData) (riskTolerance horizon : String) :
    ℚ × List String :=
  let acc : ℚ × List String := (0, [])
  let acc :=
    if collection.owner_count > 5000 then
      (acc.1 + (if riskTolerance = "conservative" then 30 else 20),
        acc.2 ++ ["strong_community"])
    else if collection.owner_count > 2000 then
      (acc.1 + 15, acc.2 ++ ["growing_community"])
    else acc
  let acc :=
    if collection.volume_change_24h > 20 ∧ riskTolerance ≠ "conservative" then
      (acc.1 + 20, acc.2 ++ ["high_momentum"])
    else if collection.volume_change_24h > 0 then
      (acc.1 + 10, acc.2 ++ ["positive_momentum"])
    else acc
  let acc :=
    if |collection.floor_price_change_24h| < 10 then
      (acc.1 + (if riskTolerance = "conservative" then 25 else 15),
        acc.2 ++ ["price_stability"])
    else acc
  let acc :=
    if collection.sales_24h > 100 then
      (acc.1 + 20, acc.2 ++ ["high_liquidity"])
    else if collection.sales_24h > 50 then
      (acc.1 + 10, acc.2 ++ ["moderate_liquidity"])
    else acc
  let acc :=
    if horizon = "long" ∧ collection.owner_count > 3000 then
      (acc.1 + 15, acc.2 ++ ["long_term_potential"])
    else if horizon = "short" ∧ collection.volume_change_24h > 30 then
      (acc.1 + 15, acc.2 ++ ["short_term_opportunity"])
    else acc
  acc

/-- Translation of scoreCollections: candidates whose floor price
exceeds the budget are skipped, the rest are scored in order and then
sorted by descending score.  The source relies on the stability of
Array.prototype.sort, so the stable mergeSort models it. -/
def scoreCollections (collections : List CollectionData)
    (riskTolerance horizon : String) (budget : ℚ) : List ScoredCollection :=
  let scored := collections.filterMap (fun collection =>
    if collection.floor_price > budget then none
    else
      let sf := scoreOne collection riskTolerance horizon
      some { collection := collection.name
             address := collection.contract_address
             score := sf.1
             floor_price := collection.floor_price
             factors := sf.2
             metrics := { holders := collection.owner_count
                          volume_24h := collection.volume_24h
                          volume_change := collection.volume_change_24h
                          floor_change := collection.floor_price_change_24h
                          sales_24h := collection.sales_24h } })
  scored.mergeSort (fun a b => b.score ≤ a.score)

/-- Position-count lookup table of generatePortfolioRecommendations. -/
def maxPositions (budget : ℚ) (riskTolerance : String) : ℕ :=
  if budget < 1000 then 1
  else if budget < 5000 then (if riskTolerance = "conservative" then 2 else 3)
  else if budget < 20000 then (if riskTolerance = "conservative" then 3 else 5)
  else (if riskTolerance = "conservative" then 5 else 8)

/-- Per-tier allocation-fraction sequence of
generatePortfolioRecommendations. -/
def allocationStrategy (riskTolerance : String) : List ℚ :=
  if riskTolerance = "conservative" then [0.4, 0.3, 0.2, 0.1]
  else if riskTolerance = "moderate" then [0.35, 0.25, 0.2, 0.15, 0.05]
  else [0.3, 0.25, 0.2, 0.15, 0.1]

/-- Translation of the per-recommendation getRiskLevel of the advisory
tool (risk from factor-tag combinations). -/
def Portfolio.getRiskLevel (collection : ScoredCollection)
    (riskTolerance : String) : String :=
  if "price_stability" ∈ collection.factors ∧
      "strong_community" ∈ collection.factors then "LOW"
  else if "high_momentum" ∈ collection.factors ∧
      ¬ "strong_community" ∈ collection.factors then "HIGH"
  else "MEDIUM"

/-- Recommendation record pushed by generatePortfolioRecommendations.
The allocation is kept as the fraction (the source formats it into a
percent string); the narrative-only reasoning and expected-return
strings are not modelled. -/
structure Recommendation where
  collection : String
  allocation : ℚ
  budget_allocation : ℚ
  recommended_quantity : ℤ
  entry_price : ℚ
  risk_level : String
  key_factors : List String
deriving Repr, DecidableEq

/-- The object pushed for candidate i in the loop body of
generatePortfolioRecommendations.  The fraction is the i-th entry of
the tier's sequence, with the source's fallback of 0.1 past its end
(the JS reads allocationStrategy[i] with a falsy-or default; no entry
is 0, so getD is the same function). -/
def mkRecommendation (budget : ℚ) (riskTolerance : String) (i : ℕ)
    (collection : ScoredCollection) : Recommendation :=
  let allocation := (allocationStrategy riskTolerance).getD i 0.1
  let allocatedBudget := budget * allocation
  { collection := collection.collection
    allocation := allocation
    budget_allocation := allocatedBudget
    recommended_quantity := ⌊allocatedBudget / collection.floor_price⌋
    entry_price := collection.floor_price
    risk_level := Portfolio.getRiskLevel collection riskTolerance
    key_factors := collection.factors }

/-- Translation of generatePortfolioRecommendations: walk the first
min(length, maxPositions) ranked candidates and push a recommendation
for each one whose floor price fits its allocated slice. -/
def generatePortfolioRecommendations (scoredCollections : List ScoredCollection)
    (budget : ℚ) (riskTolerance horizon : String) : List Recommendation :=
  (List.range (min scoredCollections.length (maxPositions budget riskTolerance))).filterMap
    (fun i =>
      match scoredCollections[i]? with
      | some collection =>
        if collection.floor_price ≤
            budget * (allocationStrategy riskTolerance).getD i 0.1 then
          some (mkRecommendation budget riskTolerance i collection)
        else none
      | none => none)

/-- Portfolio-level summary returned by calculatePortfolioMetrics. -/
structure PortfolioMetrics where
  total_positions : ℕ
  total_allocated : ℚ
  average_position_size : ℚ
  diversification_score : ℚ
  risk_score : String
  expected_return_range : String
deriving Repr, DecidableEq

/-- Translation of calculatePortfolioMetrics.  On an empty list the
source divides 0 by 0 twice, producing NaN; in ℚ a division by zero is
0.  The two models agree on every field the source derives from those
divisions by comparison, since NaN compares false against 0.5 and 0.2
exactly as 0 does; only the reported average_position_size itself
differs (NaN there, 0 here). -/
def calculatePortfolioMetrics (recommendations : List Recommendation)
    (riskTolerance : String) : PortfolioMetrics :=
  let totalAllocated := (recommendations.map (·.budget_allocation)).sum
  let avgRisk : ℚ :=
    ((recommendations.filter (fun r => r.risk_level = "HIGH")).length : ℚ) /
      (recommendations.length : ℚ)
  { total_positions := recommendations.length
    total_allocated := totalAllocated
    average_position_size := totalAllocated / (recommendations.length : ℚ)
    diversification_score := min ((recommendations.length : ℚ) * 20) 100
    risk_score :=
      if avgRisk > 0.5 then "HIGH"
      else if avgRisk > 0.2 then "MEDIUM"
      else "LOW"
    expected_return_range :=
      if riskTolerance = "conservative" then "10-30%"
      else if riskTolerance = "moderate" then "20-50%"
      else "30-100%" }

/-! ## Concrete inputs used by claim theorems -/

/-- Wallet profile of the spec's HIGH-tier example: washtrade score 60,
one collection holding 15 NFTs, no gains against 20000 of losses. -/
def walletHighTier : WalletProfile :=
  { address := "0x1234567890abcdef1234567890abcdef12345678"
    is_whale := false
    is_shark := false
    nft_count := 15
    collection_count := 1
    total_value := 500
    realized_gains := 0
    realized_losses := 20000
    washtrade_score := 60 }

/-- Collection metrics safely inside every threshold: 1000 owners, no
volume or floor movement. -/
def collectionSafeSample : CollectionData :=
  { contract_address := "0xabcabcabcabcabcabcabcabcabcabcabcabcabca"
    name := "Sample Collection"
    owner_count := 1000
    nft_count := 5000
    volume_24h := 100000
    floor_price := 1
    average_price_24h := 2
    sales_24h := 120
    volume_change_24h := 0
    floor_price_change_24h := 0
    average_price_change_24h := 0
    sales_change_24h := 0
    market_cap := 0
    fully_diluted_market_cap := 0 }

/-- Wash-trading metrics at 10 percent, below the analyzer's 15 and 30
thresholds. -/
def washSample : WashTradingData :=
  { wash_trading_volume := 10
    total_volume := 100
    wash_trading_percentage := 10
    wash_trading_sales := 2
    total_sales := 20
    wash_trading_wallets := 1
    wash_trading_assets := 1
    risk_score := 0 }

/-- Candidate whose floor price (2000) exceeds the advisory budget of
1000. -/
def budgetOverCandidate : CollectionData :=
  { contract_address := "0xbadbadbadbadbadbadbadbadbadbadbadbadbadb"
    name := "Expensive Collection"
    owner_count := 3000
    nft_count := 10000
    volume_24h := 50000
    floor_price := 2000
    average_price_24h := 2500
    sales_24h := 80
    volume_change_24h := 10
    floor_price_change_24h := 2
    average_price_change_24h := 0
    sales_change_24h := 0
    market_cap := 0
    fully_diluted_market_cap := 0 }

/-- Candidate affordable under a 1000 budget, used to exercise the
filter theorem on a nonempty scored list. -/
def affordableCandidate : CollectionData :=
  { contract_address := "0xgoodgoodgoodgoodgoodgoodgoodgoodgoodgood"
    name := "Affordable Collection"
    owner_count := 0
    nft_count := 100
    volume_24h := 1000
    floor_price := 500
    average_price_24h := 600
    sales_24h := 0
    volume_change_24h := 0
    floor_price_change_24h := 0
    average_price_change_24h := 0
    sales_change_24h := 0
    market_cap := 0
    fully_diluted_market_cap := 0 }

/-- The scored record scoreCollections produces for the affordable
candidate under a moderate, medium-horizon request: only the
price-stability factor fires, worth 15 points. -/
def affordableScored : ScoredCollection :=
  { collection := "Affordable Collection"
    address := "0xgoodgoodgoodgoodgoodgoodgoodgoodgoodgood"
    score := 15
    floor_price := 500
    factors := ["price_stability"]
    metrics := { holders := 0
                 volume_24h := 1000
                 volume_change := 0
                 floor_change := 0
                 sales_24h := 0 } }

/-- Ranked candidate used to exercise the allocation step. -/
def topScored : ScoredCollection :=
  { collection := "Top Pick"
    address := "0xdefdefdefdefdefdefdefdefdefdefdefdefdefd"
    score := 80
    floor_price := 100
    factors := ["strong_community", "price_stability"]
    metrics := { holders := 6000
                 volume_24h := 9000
                 volume_change := 5
                 floor_change := 1
                 sales_24h := 200 } }

/-! ## Claim theorems -/

/-- C5: every candidate surviving into the scored list has a floor
price within the budget (over-budget candidates are dropped before
scoring); in particular, with budget 1000 and a single candidate at
floor price 2000 the advisory pipeline returns no recommendations. -/
theorem scoreCollections_budgetFilter :
    (∀ (collections : List CollectionData) (riskTolerance horizon : String)
        (budget : ℚ) (s : ScoredCollection),
        s ∈ scoreCollections collections riskTolerance horizon budget →
        s.floor_price ≤ budget) ∧
    generatePortfolioRecommendations
        (scoreCollections [budgetOverCandidate] "moderate" "medium" 1000)
        1000 "moderate" "medium" = [] := by
  constructor
  · intro collections riskTolerance horizon budget s hs
    rw [scoreCollections, List.mem_mergeSort, List.mem_filterMap] at hs
    obtain ⟨c, _, hsome⟩ := hs
    by_cases hfp : c.floor_price > budget
    · rw [if_pos hfp] at hsome
      exact absurd hsome (by simp)
    · rw [if_neg hfp] at hsome
      rw [Option.some.injEq] at hsome
      subst hsome
      exact le_of_not_lt hfp
  · have hdrop : scoreCollections [budgetOverCandidate] "moderate" "medium" 1000 = [] := by
      rw [scoreCollections]
      norm_num [budgetOverCandidate, List.filterMap, List.mergeSort_nil]
    rw [hdrop]
    rfl

/-- C5 witness: the filter bound applied to a concrete scored list with
an affordable candidate. -/
theorem scoreCollections_budgetFilter_witness :
    affordableScored ∈ scoreCollections [affordableCandidate] "moderate" "medium" 1000 ∧
    affordableScored.floor_price ≤ 1000 :=
  have hmem : affordableScored ∈
      scoreCollections [affordableCandidate] "moderate" "medium" 1000 := by
    rw [scoreCollections]
    norm_num [affordableCandidate, affordableScored, scoreOne, List.filterMap,
      List.mergeSort_singleton]
    simp
  ⟨hmem, scoreCollections_budgetFilter.1 [affordableCandidate] "moderate" "medium"
    1000 affordableScored hmem⟩

/-- C6: the allocation step emits at most maxPositions recommendations
(1 under a 1000 budget and never more than 8, with 8 reached for
non-conservative budgets of at least 20000); the conservative fraction
sequence is [0.4, 0.3, 0.2, 0.1]; among the first
min(length, maxPositions) ranked candidates exactly those whose floor
price fits their slice budget*fraction(i) are included, and the pushed
entry's quantity is the floor of the allocated budget over the floor
price. -/
theorem generatePortfolioRecommendations_spec
    (scored : List ScoredCollection) (budget : ℚ)
    (riskTolerance horizon : String) :
    (generatePortfolioRecommendations scored budget riskTolerance horizon).length ≤
        maxPositions budget riskTolerance ∧
    (budget < 1000 → maxPositions budget riskTolerance = 1) ∧
    maxPositions budget riskTolerance ≤ 8 ∧
    (20000 ≤ budget → riskTolerance ≠ "conservative" →
      maxPositions budget riskTolerance = 8) ∧
    allocationStrategy "conservative" = [0.4, 0.3, 0.2, 0.1] ∧
    (∀ r, r ∈ generatePortfolioRecommendations scored budget riskTolerance horizon ↔
      ∃ i, i < min scored.length (maxPositions budget riskTolerance) ∧
        ∃ c, scored[i]? = some c ∧
          c.floor_price ≤ budget * (allocationStrategy riskTolerance).getD i 0.1 ∧
          r = mkRecommendation budget riskTolerance i c) ∧
    (∀ i c, (mkRecommendation budget riskTolerance i c).recommended_quantity =
      ⌊budget * (allocationStrategy riskTolerance).getD i 0.1 / c.floor_price⌋) := by
  refine ⟨?_, ?_, ?_, ?_, by norm_num [allocationStrategy], ?_, fun i c => rfl⟩
  · calc (generatePortfolioRecommendations scored budget riskTolerance horizon).length
        ≤ (List.range (min scored.length (maxPositions budget riskTolerance))).length :=
          List.length_filterMap_le _ _
      _ = min scored.length (maxPositions budget riskTolerance) := List.length_range _
      _ ≤ maxPositions budget riskTolerance := min_le_right _ _
  · intro h
    rw [maxPositions, if_pos h]
  · rw [maxPositions]
    split_ifs <;> norm_num
  · intro h1 h2
    rw [maxPositions, if_neg (by linarith), if_neg (by linarith),
      if_neg (by linarith), if_neg h2]
  · intro r
    rw [generatePortfolioRecommendations, List.mem_filterMap]
    constructor
    · rintro ⟨i, hi, hmatch⟩
      rw [List.mem_range] at hi
      refine ⟨i, hi, ?_⟩
      cases hc : scored[i]? with
      | none => rw [hc] at hmatch; exact absurd hmatch (by simp)
      | some c =>
        rw [hc] at hmatch
        dsimp only at hmatch
        by_cases hle : c.floor_price ≤
            budget * (allocationStrategy riskTolerance).getD i 0.1
        · rw [if_pos hle, Option.some.injEq] at hmatch
          exact ⟨c, rfl, hle, hmatch.symm⟩
        · rw [if_neg hle] at hmatch
          exact absurd hmatch (by simp)
    · rintro ⟨i, hi, c, hc, hle, rfl⟩
      refine ⟨i, List.mem_range.mpr hi, ?_⟩
      rw [hc]
      dsimp only
      rw [if_pos hle]

/-- C6 witness: with budget 500 only one position is allowed; with
budget 2000, conservative tier, the top-ranked candidate at floor 100
fits its 0.4 slice of 800 and its pushed entry is in the output. -/
theorem generatePortfolioRecommendations_spec_witness :
    ((500 : ℚ) < 1000 ∧ maxPositions 500 "moderate" = 1) ∧
    (topScored.floor_price ≤ 2000 * (allocationStrategy "conservative").getD 0 0.1 ∧
      mkRecommendation 2000 "conservative" 0 topScored ∈
        generatePortfolioRecommendations [topScored] 2000 "conservative" "medium") :=
  ⟨⟨by norm_num,
    (generatePortfolioRecommendations_spec [] 500 "moderate" "medium").2.1
      (by norm_num)⟩,
   ⟨by norm_num [topScored, allocationStrategy],
    ((generatePortfolioRecommendations_spec [topScored] 2000 "conservative"
        "medium").2.2.2.2.2.1 _).mpr
      ⟨0, by norm_num [maxPositions], topScored, rfl,
        by norm_num [topScored, allocationStrategy], rfl⟩⟩⟩

/-- C10: on an empty recommendations list calculatePortfolioMetrics
still yields zero positions, zero allocation, zero diversification and
the LOW aggregate risk tier; the source's two 0/0 divisions are made
total in the embedding (division by zero is zero in ℚ), which agrees
with the NaN comparisons the source relies on for the risk tier. -/
theorem calculatePortfolioMetrics_empty (riskTolerance : String) :
    (calculatePortfolioMetrics [] riskTolerance).total_positions = 0 ∧
    (calculatePortfolioMetrics [] riskTolerance).total_allocated = 0 ∧
    (calculatePortfolioMetrics [] riskTolerance).diversification_score = 0 ∧
    (calculatePortfolioMetrics [] riskTolerance).risk_score = "LOW" := by
  norm_num [calculatePortfolioMetrics]

/-- C1: with at least 500 owners, volume change not below -50, floor
movement within 30 in absolute value, and wash trading at most 15
percent, the analyzeCollection scorer yields score 100, no risks and
the SAFE recommendation. -/
theorem analyzeCollection_safeRegion (c : CollectionData) (w : WashTradingData)
    (h1 : 500 ≤ c.owner_count) (h2 : -50 ≤ c.volume_change_24h)
    (h3 : |c.floor_price_change_24h| ≤ 30)
    (h4 : w.wash_trading_percentage ≤ 15) :
    analyzeCollection c (some w) =
      { safety_score := 100, risks := [], recommendation := "SAFE" } := by
  have hA : ¬ c.owner_count < 100 := by linarith
  have hB : ¬ c.owner_count < 500 := by linarith
  have hC : ¬ w.wash_trading_percentage > 30 := by linarith
  have hD : ¬ w.wash_trading_percentage > 15 := by linarith
  have hE : ¬ c.volume_change_24h < -50 := by linarith
  have hF : ¬ |c.floor_price_change_24h| > 30 := by linarith
  simp [analyzeCollection, collectionSafety, collectionRecommendation,
    hA, hB, hC, hD, hE, hF]
  norm_num

/-- C1 witness: the sample collection with 1000 owners and 10 percent
wash trading scores 100, SAFE, no risks. -/
theorem analyzeCollection_safeRegion_witness :
    (500 ≤ collectionSafeSample.owner_count ∧
      -50 ≤ collectionSafeSample.volume_change_24h ∧
      |collectionSafeSample.floor_price_change_24h| ≤ 30 ∧
      washSample.wash_trading_percentage ≤ 15) ∧
    analyzeCollection collectionSafeSample (some washSample) =
      { safety_score := 100, risks := [], recommendation := "SAFE" } :=
  ⟨⟨by norm_num [collectionSafeSample], by norm_num [collectionSafeSample],
    by norm_num [collectionSafeSample], by norm_num [washSample]⟩,
   analyzeCollection_safeRegion collectionSafeSample washSample
     (by norm_num [collectionSafeSample]) (by norm_num [collectionSafeSample])
     (by norm_num [collectionSafeSample]) (by norm_num [washSample])⟩

/-- C4 counterexample: crossing the 5-percent mark changes nothing in
the analyzeCollection score — with all other inputs fixed, 4 percent
and 6 percent wash trading score identically, so the 5 boundary
produces no step decrease in this scorer (the claim asserts one). -/
theorem safetyScore_no_step_at_5 :
    (analyzeCollection collectionSafeSample (some (setWashPct washSample 6))).safety_score =
      (analyzeCollection collectionSafeSample (some (setWashPct washSample 4))).safety_score := by
  norm_num [analyzeCollection, collectionSafety, setWashPct, washSample,
    collectionSafeSample]

/-- C4 amended: holding all other inputs fixed, the analyzeCollection
safety score is non-increasing in the wash-trading percentage; the 15
and 30 boundaries each produce a strict step decrease; the 5 boundary
produces no change (scores agree anywhere below or at 15). -/
theorem safetyScore_washPct_monotone (c : CollectionData)
    (w : WashTradingData) (p₁ p₂ : ℚ) :
    (p₁ ≤ p₂ →
      (analyzeCollection c (some (setWashPct w p₂))).safety_score ≤
        (analyzeCollection c (some (setWashPct w p₁))).safety_score) ∧
    (p₁ ≤ 15 → 15 < p₂ →
      (analyzeCollection c (some (setWashPct w p₂))).safety_score <
        (analyzeCollection c (some (setWashPct w p₁))).safety_score) ∧
    (p₁ ≤ 30 → 30 < p₂ →
      (analyzeCollection c (some (setWashPct w p₂))).safety_score <
        (analyzeCollection c (some (setWashPct w p₁))).safety_score) ∧
    (p₁ ≤ 15 → p₂ ≤ 15 →
      (analyzeCollection c (some (setWashPct w p₂))).safety_score =
        (analyzeCollection c (some (setWashPct w p₁))).safety_score) := by
  have hbase : ∀ p : ℚ,
      (analyzeCollection c (some (setWashPct w p))).safety_score =
        100 - holderPenalty c - washPenalty (some (setWashPct w p)) -
          volumePenalty c - volatilityPenalty c := fun p => by
    simpa [analyzeCollection] using
      collectionSafety_score_decomp c (some (setWashPct w p))
  refine ⟨fun h => ?_, fun h1 h2 => ?_, fun h1 h2 => ?_, fun h1 h2 => ?_⟩ <;>
    rw [hbase, hbase] <;>
    simp only [washPenalty, setWashPct] <;>
    split_ifs <;> linarith

/-- C4 amended witness: raising the percentage from 10 to 20 on the
sample inputs lowers the score. -/
theorem safetyScore_washPct_monotone_witness :
    ((10 : ℚ) ≤ 20 ∧
      (analyzeCollection collectionSafeSample (some (setWashPct washSample 20))).safety_score ≤
        (analyzeCollection collectionSafeSample (some (setWashPct washSample 10))).safety_score) ∧
    ((10 : ℚ) ≤ 15 ∧ (15 : ℚ) < 20 ∧
      (analyzeCollection collectionSafeSample (some (setWashPct washSample 20))).safety_score <
        (analyzeCollection collectionSafeSample (some (setWashPct washSample 10))).safety_score) :=
  ⟨⟨by norm_num,
    (safetyScore_washPct_monotone collectionSafeSample washSample 10 20).1 (by norm_num)⟩,
   ⟨by norm_num, by norm_num,
    (safetyScore_washPct_monotone collectionSafeSample washSample 10 20).2.1
      (by norm_num) (by norm_num)⟩⟩

/-- C2: the wash-trading severity classifier is the step function with
tiers CRITICAL on 40 ≤ p, HIGH on 25 ≤ p < 40, MODERATE on
15 ≤ p < 25, LOW on 5 ≤ p < 15 and MINIMAL below 5; in particular
39.9 classifies as HIGH and 40 as CRITICAL. -/
theorem getWashTradingSeverity_tiers (p : ℚ) :
    (getWashTradingSeverity p = "CRITICAL" ↔ 40 ≤ p) ∧
    (getWashTradingSeverity p = "HIGH" ↔ 25 ≤ p ∧ p < 40) ∧
    (getWashTradingSeverity p = "MODERATE" ↔ 15 ≤ p ∧ p < 25) ∧
    (getWashTradingSeverity p = "LOW" ↔ 5 ≤ p ∧ p < 15) ∧
    (getWashTradingSeverity p = "MINIMAL" ↔ p < 5) ∧
    getWashTradingSeverity 39.9 = "HIGH" ∧
    getWashTradingSeverity 40 = "CRITICAL" := by
  refine ⟨?_, ?_, ?_, ?_, ?_, by norm_num [getWashTradingSeverity], by
    norm_num [getWashTradingSeverity]⟩ <;>
    unfold getWashTradingSeverity <;>
    split_ifs <;> simp_all <;>
      first
      | linarith
      | exact fun h => by linarith

/-- C3: on the profile with washtrade score 60, a single collection of
15 NFTs, zero gains and 20000 losses, the wallet risk scorer returns
exactly 75 (40 + 15 + 20, with the three matching red flags in source
order) and the 75 score is tiered HIGH. -/
theorem walletRiskScore_highTier :
    walletRiskScore walletHighTier =
      (75, ["high_wash_trading_activity", "poor_trading_performance",
            "highly_concentrated_portfolio"]) ∧
    getRiskLevel (walletRiskScore walletHighTier).1 = "HIGH" := by
  constructor
  · norm_num [walletRiskScore, walletHighTier]
  · norm_num [walletRiskScore, walletHighTier, getRiskLevel]

/-- C7: for any wallet address failing the canonical 0x-plus-40-hex
format, checkWalletRisk returns the structured validation error and
performs zero upstream fetches, whatever the upstream oracle is. -/
theorem checkWalletRisk_invalidAddress (wallet_address : String)
    (fetchProfile : String → Option WalletProfile)
    (h : isValidWalletAddress wallet_address = false) :
    checkWalletRisk wallet_address fetchProfile =
      (.invalidAddress wallet_address, 0) := by
  simp [checkWalletRisk, h]

/-- C7 witness: the spec's concrete invalid address 0xZZZ is rejected
with no upstream call. -/
theorem checkWalletRisk_invalidAddress_witness :
    isValidWalletAddress "0xZZZ" = false ∧
    checkWalletRisk "0xZZZ" (fun _ => none) =
      (.invalidAddress "0xZZZ", 0) :=
  ⟨by decide, checkWalletRisk_invalidAddress "0xZZZ" (fun _ => none) (by decide)⟩

/-- C8: the metric normalizer is a total function into ℚ by its type;
an absent metric, a null value and the NA sentinel all normalize to 0,
and the string 12.5 normalizes to the number 12.5. -/
theorem getValue_defaults :
    getValue none = 0 ∧
    getValue (some ⟨none⟩) = 0 ∧
    getValue (some ⟨some "NA"⟩) = 0 ∧
    getValue (some ⟨some "12.5"⟩) = 12.5 := by
  refine ⟨by decide, ?_, by decide, ?_⟩
  · simp +decide [getValue, parseFloat, takeDigits, digitsToNat]
  · simp +decide [getValue, parseFloat, takeDigits, digitsToNat]
    norm_num

/-- C9: zero values in all four change fields classify as neutral, and
since the client's aggregated market metrics always carry zero change
fields, every metrics value it can produce classifies as neutral — the
bullish and bearish outcomes are unreachable from that data source. -/
theorem marketSentiment_neutralOnZeroChanges (m : MarketMetrics)
    (h1 : m.volume_change_24h = 0) (h2 : m.sales_change_24h = 0)
    (h3 : m.active_wallets_change = 0) (h4 : m.average_price_change = 0) :
    determineMarketSentiment m = "neutral" ∧
    ∀ (trending : List CollectionData) (mm : MarketMetrics),
      getMarketMetrics trending = some mm →
        determineMarketSentiment mm = "neutral" := by
  constructor
  · norm_num [determineMarketSentiment, h1, h2, h3, h4]
  · intro trending mm h
    unfold getMarketMetrics at h
    split at h
    · exact absurd h (by simp)
    · injection h with h
      subst h
      norm_num [determineMarketSentiment]

/-- C9 witness: a concrete metrics value with zero change fields is
classified neutral. -/
theorem marketSentiment_neutralOnZeroChanges_witness :
    determineMarketSentiment ⟨1000, 0, 50, 0, 20, 0, 300, 0⟩ = "neutral" :=
  (marketSentiment_neutralOnZeroChanges ⟨1000, 0, 50, 0, 20, 0, 300, 0⟩
    rfl rfl rfl rfl).1

end NFTAnalytics
